import Mathlib

/-!
# Verification of the report export worker

Shallow embedding of the streaming export pipeline of the
`backend-reporting-service` repository, together with proofs of the
spec-level properties of its components: the queue consumer and batch
listener, the export event handler and export service pipelines, the
audit-log datastore update, the paginated analytics batch streams, the
sheet-suffix derivation and the FAQ frequency computation.

Each definition mirrors one Python function of the source tree; the file
states and proves (or refutes) the spec claims about them.
-/

namespace ReportingService

/-! ## Data model — `src/sifthub/reporting/models/export_models.py` -/

/-- `ExportMode` enum: `download` / `email`. -/
inductive ExportMode
  | download
  | email
deriving DecidableEq

/-- `ExportModule` enum: `insights` / `usageLogs`. -/
inductive ExportModule
  | insights
  | usageLogs
deriving DecidableEq

/-- `ExportStatus` enum.  Note: the source enum has exactly these five
members; there is no `COMPLETED` member, although
`export_service.py` references `ExportStatus.COMPLETED`. -/
inductive ExportStatus
  | PENDING
  | QUEUED
  | PROCESSING
  | SUCCESS
  | FAILED
deriving DecidableEq

/-- `FilterCondition` pydantic model: `{field, data, operation}`. -/
structure FilterCondition where
  field : String
  data : String
  operation : String
deriving DecidableEq

/-- `FilterConditions` pydantic model: an ordered mapping from field path
to condition (modelled as an association list, preserving order) plus a
`regex` string. -/
structure FilterConditions where
  conditions : List (String × FilterCondition)
  regex : String
deriving DecidableEq

/-- `SQSExportMessage` pydantic model (the export job). -/
structure SQSExportMessage where
  eventId : String
  mode : ExportMode
  module : ExportModule
  type : String
  subType : String
  user_id : Int
  clientId : Int
  productId : Int
  filter : Option FilterConditions := none
  pageFilter : Option FilterConditions := none
deriving DecidableEq

/-- Python's `pat in s` substring test on strings. -/
def isSubstring (pat s : String) : Bool :=
  decide (pat.toList <:+: s.toList)

/-! ## Sheet suffix — three source implementations

The repository computes the `All | Answered | Unanswered` sheet/filename
suffix in three places:
* `processors/insights_processor.py` `_get_sheet_suffix` (substring test),
  whose body is byte-identical to `factories/module_factory.py`;
* `excel_generators/insights_faq_excel_generator.py` `_get_sheet_suffix`
  (substring test, same chain);
* `services/excel_generators/insights_faq_generator.py` `_get_sheet_suffix`
  (exact string equality test).
-/

namespace InsightsProcessor

/-- `processors/insights_processor.py::_get_sheet_suffix`.
Mirrors the truthiness guards: `message.filter` must be non-None,
`message.filter.conditions` non-empty, the `"status"` condition present and
its `data` non-empty; then a chain of Python `in` substring tests. -/
def get_sheet_suffix (message : SQSExportMessage) : String :=
  match message.filter with
  | none => "All"
  | some f =>
    if f.conditions = [] then "All"
    else
      match f.conditions.lookup "status" with
      | none => "All"
      | some cond =>
        if cond.data = "" then "All"
        else if isSubstring "ANSWERED#@#NO_INFORMATION#@#PARTIAL" cond.data then "All"
        else if isSubstring "ANSWERED#@#PARTIAL" cond.data then "Answered"
        else if isSubstring "NO_INFORMATION" cond.data then "Unanswered"
        else "All"

end InsightsProcessor

namespace InsightsFAQExcelGenerator

/-- `excel_generators/insights_faq_excel_generator.py::_get_sheet_suffix`
(the streaming generator).  Its body is identical to the processors
version. -/
def get_sheet_suffix (message : SQSExportMessage) : String :=
  match message.filter with
  | none => "All"
  | some f =>
    if f.conditions = [] then "All"
    else
      match f.conditions.lookup "status" with
      | none => "All"
      | some cond =>
        if cond.data = "" then "All"
        else if isSubstring "ANSWERED#@#NO_INFORMATION#@#PARTIAL" cond.data then "All"
        else if isSubstring "ANSWERED#@#PARTIAL" cond.data then "Answered"
        else if isSubstring "NO_INFORMATION" cond.data then "Unanswered"
        else "All"

end InsightsFAQExcelGenerator

namespace InsightsFAQGeneratorServices

/-- `services/excel_generators/insights_faq_generator.py::_get_sheet_suffix`.
This version takes the filter conditions directly and compares the status
data by EXACT equality (`==`), not substring containment. -/
def get_sheet_suffix (filter_conditions : Option FilterConditions) : String :=
  match filter_conditions with
  | none => "All"
  | some f =>
    match f.conditions.lookup "status" with
    | none => "All"
    | some cond =>
      if cond.data = "ANSWERED#@#NO_INFORMATION#@#PARTIAL" then "All"
      else if cond.data = "ANSWERED#@#PARTIAL" then "Answered"
      else if cond.data = "NO_INFORMATION" then "Unanswered"
      else "All"

end InsightsFAQGeneratorServices

/-- The status-condition data of a job's filter:
`job.filter.conditions["status"].data`, `none` when the filter or the
condition is absent. -/
def statusData (filter? : Option FilterConditions) : Option String :=
  match filter? with
  | none => none
  | some f => (f.conditions.lookup "status").map (·.data)

/-- The suffix table as the spec states it, as a function of the status
data alone: containing `ANSWERED#@#NO_INFORMATION#@#PARTIAL` yields `All`,
otherwise containing `ANSWERED#@#PARTIAL` yields `Answered`, otherwise
containing `NO_INFORMATION` yields `Unanswered`, anything else or absent
yields `All`. -/
def suffixSpecTable (data? : Option String) : String :=
  match data? with
  | none => "All"
  | some d =>
    if isSubstring "ANSWERED#@#NO_INFORMATION#@#PARTIAL" d then "All"
    else if isSubstring "ANSWERED#@#PARTIAL" d then "Answered"
    else if isSubstring "NO_INFORMATION" d then "Unanswered"
    else "All"

/-- The exact-equality suffix table implemented by the services FAQ
generator, as a function of the status data alone. -/
def suffixEqTable (data? : Option String) : String :=
  match data? with
  | none => "All"
  | some d =>
    if d = "ANSWERED#@#NO_INFORMATION#@#PARTIAL" then "All"
    else if d = "ANSWERED#@#PARTIAL" then "Answered"
    else if d = "NO_INFORMATION" then "Unanswered"
    else "All"

lemma isSubstring_empty_right (pat : String) (h : pat ≠ "") :
    isSubstring pat "" = false := by
  unfold isSubstring
  simp only [decide_eq_false_iff_not]
  intro hinf
  have hnil : pat.toList = [] := List.eq_nil_of_infix_nil hinf
  apply h
  cases pat with
  | mk l =>
    simp only [String.toList, String.data] at hnil
    exact congrArg String.mk hnil

/-- The processors implementation factors through the spec table: it is a
pure function of the status data alone. -/
lemma processors_suffix_eq_table (m : SQSExportMessage) :
    InsightsProcessor.get_sheet_suffix m = suffixSpecTable (statusData m.filter) := by
  unfold InsightsProcessor.get_sheet_suffix suffixSpecTable statusData
  cases m.filter with
  | none => rfl
  | some f =>
    cases hconds : f.conditions with
    | nil => simp [hconds]
    | cons c cs =>
      simp only [hconds, reduceCtorEq, if_false]
      cases hl : List.lookup "status" (c :: cs) with
      | none => simp [hl]
      | some cond =>
        simp only [hl, Option.map_some']
        by_cases hd : cond.data = ""
        · rw [if_pos hd, hd]
          rw [isSubstring_empty_right _ (by decide),
            isSubstring_empty_right _ (by decide),
            isSubstring_empty_right _ (by decide)]
          simp
        · rw [if_neg hd]

/-- The streaming excel generator's suffix agrees with the processors
version (their bodies are identical). -/
lemma streaming_suffix_eq_processors (m : SQSExportMessage) :
    InsightsFAQExcelGenerator.get_sheet_suffix m = InsightsProcessor.get_sheet_suffix m := rfl

/-- The services FAQ generator's suffix factors through the exact-equality
table: it too is a pure function of the status data alone. -/
lemma services_suffix_eq_eq_table (fc : Option FilterConditions) :
    InsightsFAQGeneratorServices.get_sheet_suffix fc = suffixEqTable (statusData fc) := by
  unfold InsightsFAQGeneratorServices.get_sheet_suffix suffixEqTable statusData
  cases fc with
  | none => rfl
  | some f =>
    cases hl : List.lookup "status" f.conditions with
    | none => simp [hl]
    | some cond => simp [hl]

/-- A concrete status filter whose `data` is `NO_INFORMATION#@#PARTIAL`:
it contains the substring `NO_INFORMATION` but equals none of the three
exact strings. -/
def exStatusFilter : FilterConditions :=
  { conditions := [("status", { field := "status", data := "NO_INFORMATION#@#PARTIAL", operation := "in" })]
    regex := "" }

/-- A concrete FAQ export job carrying `exStatusFilter`. -/
def exMsgC7 : SQSExportMessage :=
  { eventId := "evt-1", mode := .download, module := .insights
    type := "responseGeneration", subType := "frequentAskedQuestions"
    user_id := 7, clientId := 11, productId := 3
    filter := some exStatusFilter, pageFilter := none }

/-- C7 counterexample: on status data `NO_INFORMATION#@#PARTIAL` the
processors implementation returns `Unanswered` (containment), while the
services FAQ generator returns `All` (exact equality), so the same input
does NOT produce the same suffix in every component, and the services
component does not follow the containment table of the claim. -/
theorem C7_counterexample :
    InsightsProcessor.get_sheet_suffix exMsgC7 = "Unanswered" ∧
    InsightsFAQGeneratorServices.get_sheet_suffix (some exStatusFilter) = "All" := by
  constructor <;> decide

/-- C7 (amended): each suffix implementation is a pure, total, deterministic
function of `job.filter.conditions["status"].data` alone; the processors and
streaming-excel implementations realise the containment table of the spec
(`ANSWERED#@#NO_INFORMATION#@#PARTIAL` ⊆ data → `All`, else
`ANSWERED#@#PARTIAL` ⊆ data → `Answered`, else `NO_INFORMATION` ⊆ data →
`Unanswered`, else `All`), while the services FAQ generator realises the
EXACT-equality variant of the table, so the two families may disagree. -/
theorem C7_suffix_determinism :
    (∀ m : SQSExportMessage,
      InsightsProcessor.get_sheet_suffix m = suffixSpecTable (statusData m.filter)) ∧
    (∀ m : SQSExportMessage,
      InsightsFAQExcelGenerator.get_sheet_suffix m = suffixSpecTable (statusData m.filter)) ∧
    (∀ fc : Option FilterConditions,
      InsightsFAQGeneratorServices.get_sheet_suffix fc = suffixEqTable (statusData fc)) :=
  ⟨processors_suffix_eq_table,
   fun m => (streaming_suffix_eq_processors m).trans (processors_suffix_eq_table m),
   services_suffix_eq_eq_table⟩

/-! ## Audit store — `src/sifthub/datastores/event/mongo/report_audit_log_datastore.py` -/

/-- A value stored in an audit-row field. -/
inductive FieldVal
  | str (s : String)
  | int (n : Int)
  | time (t : Nat)
  | status (st : ExportStatus)
deriving DecidableEq

/-- The optional arguments of `ReportAuditLogDataStore.update_status`
(and of the handler-level `update_audit_log_status`). -/
structure UpdateStatusArgs where
  status : ExportStatus
  total_time : Option Int := none
  s3_bucket : Option String := none
  download_url : Option String := none
deriving DecidableEq

namespace ReportAuditLogDataStore

/-- The `$set` document built by `update_status`: always `status` and
`updated_at`; `total_time` added when it `is not None` (so `0` is written);
`s3_bucket` and `download_url` added only when truthy (non-None and
non-empty string). -/
def update_data (now : Nat) (a : UpdateStatusArgs) : List (String × FieldVal) :=
  [("status", FieldVal.status a.status), ("updated_at", FieldVal.time now)]
    ++ (match a.total_time with
        | some t => [("total_time", FieldVal.int t)]
        | none => [])
    ++ (match a.s3_bucket with
        | some s => if s = "" then [] else [("s3_bucket", FieldVal.str s)]
        | none => [])
    ++ (match a.download_url with
        | some u => if u = "" then [] else [("download_url", FieldVal.str u)]
        | none => [])

/-- An audit row: a partial map from field name to value. -/
def Row := String → Option FieldVal

/-- Mongo `$set` semantics: every key of the document is overwritten, every
other field of the row is untouched. -/
def applySet (row : Row) (doc : List (String × FieldVal)) : Row :=
  fun k =>
    match doc.lookup k with
    | some v => some v
    | none => row k

/-- Outcome of the awaited collection call inside `update_status`. -/
inductive MongoOutcome
  | ok (modifiedCount : Nat)
  | raised
deriving DecidableEq

/-- The boolean returned by `update_status`: `modified_count > 0` when the
call completed, `False` when anything in the body raised (the `except`
branch returns `False` instead of propagating). -/
def update_status_result : MongoOutcome → Bool
  | .ok n => decide (0 < n)
  | .raised => false

lemma lookup_eq_none_of_not_mem_keys {l : List (String × FieldVal)} {k : String}
    (h : k ∉ l.map Prod.fst) : l.lookup k = none := by
  induction l with
  | nil => rfl
  | cons p t ih =>
    simp only [List.map_cons, List.mem_cons, not_or] at h
    have hk : (k == p.1) = false := by simpa using h.1
    simp only [List.lookup, hk]
    exact ih h.2

lemma applySet_not_mem (row : Row) (doc : List (String × FieldVal)) (k : String)
    (h : k ∉ doc.map Prod.fst) : applySet row doc k = row k := by
  unfold applySet
  rw [lookup_eq_none_of_not_mem_keys h]

/-- The five field names `update_status` may ever touch. -/
def mutableKeys : List String :=
  ["status", "updated_at", "total_time", "s3_bucket", "download_url"]

lemma update_data_keys_subset (now : Nat) (a : UpdateStatusArgs) :
    ∀ k ∈ (update_data now a).map Prod.fst, k ∈ mutableKeys := by
  rcases a with ⟨st, tt, sb, du⟩
  intro k hk
  rcases tt with _ | t <;> rcases sb with _ | s <;> rcases du with _ | u <;>
    simp only [update_data, mutableKeys] at hk ⊢ <;>
    (repeat' split at hk) <;> simp_all <;> tauto

lemma mem_keys_total_time (now : Nat) (a : UpdateStatusArgs) :
    "total_time" ∈ (update_data now a).map Prod.fst ↔ a.total_time ≠ none := by
  rcases a with ⟨st, tt, sb, du⟩
  rcases tt with _ | t <;> rcases sb with _ | s <;> rcases du with _ | u <;>
    simp only [update_data] <;> (repeat' split) <;> simp_all

lemma mem_keys_s3_bucket (now : Nat) (a : UpdateStatusArgs) :
    "s3_bucket" ∈ (update_data now a).map Prod.fst ↔
      ∃ s, a.s3_bucket = some s ∧ s ≠ "" := by
  rcases a with ⟨st, tt, sb, du⟩
  rcases tt with _ | t <;> rcases sb with _ | s <;> rcases du with _ | u <;>
    simp only [update_data] <;> (repeat' split) <;> simp_all

lemma mem_keys_download_url (now : Nat) (a : UpdateStatusArgs) :
    "download_url" ∈ (update_data now a).map Prod.fst ↔
      ∃ u, a.download_url = some u ∧ u ≠ "" := by
  rcases a with ⟨st, tt, sb, du⟩
  rcases tt with _ | t <;> rcases sb with _ | s <;> rcases du with _ | u <;>
    simp only [update_data] <;> (repeat' split) <;> simp_all

lemma mem_keys_status (now : Nat) (a : UpdateStatusArgs) :
    "status" ∈ (update_data now a).map Prod.fst := by
  simp [update_data]

lemma mem_keys_updated_at (now : Nat) (a : UpdateStatusArgs) :
    "updated_at" ∈ (update_data now a).map Prod.fst := by
  simp [update_data]

end ReportAuditLogDataStore

open ReportAuditLogDataStore in
/-- C10: `update_status` touches only `status` and `updated_at` plus exactly
the optional fields actually supplied — `total_time` whenever it is not
None (so `0` is written), `s3_bucket` and `download_url` only when truthy
(empty strings are skipped) — every other field of the row is unchanged by
the `$set`; and when anything inside raises, it returns `False` instead of
propagating. -/
theorem C10_update_status_frame (now : Nat) (a : UpdateStatusArgs) :
    "status" ∈ (update_data now a).map Prod.fst ∧
    "updated_at" ∈ (update_data now a).map Prod.fst ∧
    ("total_time" ∈ (update_data now a).map Prod.fst ↔ a.total_time ≠ none) ∧
    ("s3_bucket" ∈ (update_data now a).map Prod.fst ↔
      ∃ s, a.s3_bucket = some s ∧ s ≠ "") ∧
    ("download_url" ∈ (update_data now a).map Prod.fst ↔
      ∃ u, a.download_url = some u ∧ u ≠ "") ∧
    (∀ (row : Row) (k : String), k ∉ mutableKeys →
      applySet row (update_data now a) k = row k) ∧
    update_status_result .raised = false :=
  ⟨mem_keys_status now a, mem_keys_updated_at now a,
   mem_keys_total_time now a, mem_keys_s3_bucket now a, mem_keys_download_url now a,
   fun row k hk =>
     applySet_not_mem row (update_data now a) k
       (fun hmem => hk (update_data_keys_subset now a k hmem)),
   rfl⟩

/-- A concrete audit row used to witness the frame property. -/
def exRow : ReportAuditLogDataStore.Row :=
  fun k => if k = "request_payload" then some (FieldVal.str "payload") else none

/-- Concrete `update_status` arguments: `total_time = 0` (written), an
empty bucket string (skipped) and a download url. -/
def exArgs : UpdateStatusArgs :=
  { status := .SUCCESS, total_time := some 0, s3_bucket := some "", download_url := some "u" }

open ReportAuditLogDataStore in
/-- Witness for C10 at concrete inputs: a field outside the mutable set is
untouched by the update. -/
theorem C10_witness :
    "request_payload" ∉ mutableKeys ∧
    applySet exRow (update_data 5 exArgs) "request_payload" = exRow "request_payload" :=
  ⟨by decide, (C10_update_status_frame 5 exArgs).2.2.2.2.2.1 exRow "request_payload" (by decide)⟩

/-! ## Export pipeline — `event/handler/export_event_handler.py` and
`services/export_service.py`

Both pipelines are embedded as functions of the job message, the measured
elapsed time, and the outcomes of the two effectful steps (report builder
and delivery).  The embedding records, in order, every audit-status update
issued and every firebase notification published.  `update_audit_log_status`
/ `_update_audit_log_status` and the firebase senders swallow their own
exceptions in the source, so they are total here; an exception raised by a
builder or delivery step lands in the enclosing `except` block. -/

/-- An observable effect of a pipeline run: an audit-status update call or
a firebase notification. -/
inductive Effect
  | audit (a : UpdateStatusArgs)
  | notify (status : String) (download_url : String)
deriving DecidableEq

/-- Outcome of `module_processor.process_export` /
`export_processor.process_export`: a produced file, a `None` result, or an
exception. -/
inductive BuilderOutcome
  | file
  | noFile
  | raised
deriving DecidableEq

/-- The dictionary returned by `deliver_export`: a `success` flag and the
optional `s3_bucket` / `download_url` keys. -/
structure DeliveryResult where
  success : Bool
  s3_bucket : Option String := none
  download_url : Option String := none
deriving DecidableEq

/-- Outcome of the delivery step: a returned result dict or an exception. -/
inductive DeliveryOutcome
  | result (r : DeliveryResult)
  | raised
deriving DecidableEq

namespace ModuleProcessorFactory

/-- `factories/module_factory.py`: the `_processors` dict maps both
`ExportModule` members, so `create_processor` succeeds on every parsed
module value. -/
def create_processor : ExportModule → Option Unit
  | .insights => some ()
  | .usageLogs => some ()

end ModuleProcessorFactory

namespace DeliveryProcessorFactory

/-- `factories/delivery_factory.py`: the `_processors` dict maps both
`ExportMode` members. -/
def create_processor : ExportMode → Option Unit
  | .download => some ()
  | .email => some ()

end DeliveryProcessorFactory

namespace ExportProcessorFactory

/-- `services/export_factory.py::ExportProcessorFactory.create_processor`:
string-typed dispatch on `(module, type, subType)`; unsupported
combinations yield `None`. -/
def create_processor (m : SQSExportMessage) : Option Unit :=
  match m.module with
  | .insights =>
    if m.type = "responseGeneration" then
      if m.subType = "frequentAskedQuestions" then some () else none
    else if m.type = "projectCollaboration" then some ()
    else if m.type = "AITeammate" then some ()
    else none
  | .usageLogs =>
    if m.type = "answer" ∨ m.type = "autofill" ∨ m.type = "AITeammate" then some ()
    else none

end ExportProcessorFactory

namespace ExportEventHandler

/-- `export_event_handler.process_export_request`.  Returns the ordered
effect trace and the boolean result. -/
def process_export_request (message : SQSExportMessage) (total_time : Int)
    (builder : BuilderOutcome) (delivery : DeliveryOutcome) :
    List Effect × Bool :=
  let processing : List Effect := [.audit { status := .PROCESSING }]
  match ModuleProcessorFactory.create_processor message.module with
  | none => (processing ++ [.audit { status := .FAILED }], false)
  | some _ =>
    match builder with
    | .raised =>
      (processing ++ [.audit { status := .FAILED }, .notify "FAILED" ""], false)
    | .noFile => (processing ++ [.audit { status := .FAILED }], false)
    | .file =>
      match DeliveryProcessorFactory.create_processor message.mode with
      | none => (processing ++ [.audit { status := .FAILED }], false)
      | some _ =>
        match delivery with
        | .raised =>
          (processing ++ [.audit { status := .FAILED }, .notify "FAILED" ""], false)
        | .result r =>
          if r.success then
            let success : Effect := .audit
              { status := .SUCCESS, total_time := some total_time,
                s3_bucket := r.s3_bucket, download_url := r.download_url }
            if message.mode = .download then
              (processing ++ [success, .notify "SUCCESS" (r.download_url.getD "")], true)
            else
              (processing ++ [success], true)
          else
            (processing ++ [.audit { status := .FAILED }, .notify "FAILED" ""], false)

end ExportEventHandler

namespace ExportService

/-- `services/export_service.py::ExportService.process_export_request`.
On a successful delivery the source evaluates `ExportStatus.COMPLETED`,
which does not exist on the enum: the attribute access raises
`AttributeError` before any update is issued, the enclosing `except` block
writes `FAILED` and returns `False`.  Failure branches in this pipeline
send no notification; the success-notification line is unreachable. -/
def process_export_request (message : SQSExportMessage) (total_time : Int)
    (builder : BuilderOutcome) (delivery : DeliveryOutcome) :
    List Effect × Bool :=
  let processing : List Effect := [.audit { status := .PROCESSING }]
  match ExportProcessorFactory.create_processor message with
  | none => (processing ++ [.audit { status := .FAILED }], false)
  | some _ =>
    match builder with
    | .raised => (processing ++ [.audit { status := .FAILED }], false)
    | .noFile => (processing ++ [.audit { status := .FAILED }], false)
    | .file =>
      match DeliveryProcessorFactory.create_processor message.mode with
      | none => (processing ++ [.audit { status := .FAILED }], false)
      | some _ =>
        match delivery with
        | .raised => (processing ++ [.audit { status := .FAILED }], false)
        | .result r =>
          if r.success then
            (processing ++ [.audit { status := .FAILED }], false)
          else
            (processing ++ [.audit { status := .FAILED }], false)

end ExportService

/-- Is the effect a terminal (`SUCCESS` or `FAILED`) audit update? -/
def isTerminalWrite : Effect → Bool
  | .audit a => a.status == .SUCCESS || a.status == .FAILED
  | .notify _ _ => false

/-- Number of terminal audit updates in a trace. -/
def terminalCount (l : List Effect) : Nat :=
  (l.filter isTerminalWrite).length

/-- C1: on every path of both pipelines — unsupported module/type, builder
returning nothing, builder exception, missing delivery processor, delivery
failure, delivery exception, or clean success — exactly one terminal audit
status (`SUCCESS` or `FAILED`) is written during the attempt: never zero
and never two. -/
theorem C1_exactly_one_terminal_write (m : SQSExportMessage) (total_time : Int)
    (b : BuilderOutcome) (d : DeliveryOutcome) :
    terminalCount (ExportEventHandler.process_export_request m total_time b d).1 = 1 ∧
    terminalCount (ExportService.process_export_request m total_time b d).1 = 1 := by
  constructor
  · unfold ExportEventHandler.process_export_request
    repeat' split
    all_goals rfl
  · unfold ExportService.process_export_request
    repeat' split
    all_goals rfl

/-- A successful streaming delivery result as the download processor
returns it. -/
def exDeliveryOk : DeliveryOutcome :=
  .result { success := true, s3_bucket := some "sifthub-exports",
            download_url := some "https-presigned-url" }

/-- C4 failing-input evaluation: on the very same job and the very same
successful delivery result, the handler pipeline writes `SUCCESS` with the
elapsed seconds, bucket and download URL — but the `ExportService` pipeline
(whose success branch evaluates the nonexistent `ExportStatus.COMPLETED`
and therefore raises) writes terminal status `FAILED`, with no elapsed
time, no bucket, and no URL. -/
theorem C4_service_success_becomes_failed :
    ExportEventHandler.process_export_request exMsgC7 12 .file exDeliveryOk =
      ([.audit { status := .PROCESSING },
        .audit { status := .SUCCESS, total_time := some 12,
                 s3_bucket := some "sifthub-exports",
                 download_url := some "https-presigned-url" },
        .notify "SUCCESS" "https-presigned-url"], true) ∧
    ExportService.process_export_request exMsgC7 12 .file exDeliveryOk =
      ([.audit { status := .PROCESSING }, .audit { status := .FAILED }], false) := by
  constructor <;> rfl

/-- C9: in both pipelines every audit update whose status is not `SUCCESS`
passes `download_url = None`; and the datastore `$set` document of an
update called with `download_url = None` contains no `download_url` key.
Hence a `FAILED` (or `PROCESSING`) update never writes a download URL. -/
theorem C9_no_url_without_success :
    (∀ (m : SQSExportMessage) (t : Int) (b : BuilderOutcome) (d : DeliveryOutcome)
      (a : UpdateStatusArgs),
      Effect.audit a ∈ (ExportEventHandler.process_export_request m t b d).1 →
      a.status ≠ .SUCCESS → a.download_url = none) ∧
    (∀ (m : SQSExportMessage) (t : Int) (b : BuilderOutcome) (d : DeliveryOutcome)
      (a : UpdateStatusArgs),
      Effect.audit a ∈ (ExportService.process_export_request m t b d).1 →
      a.download_url = none) ∧
    (∀ (now : Nat) (a : UpdateStatusArgs), a.download_url = none →
      "download_url" ∉ (ReportAuditLogDataStore.update_data now a).map Prod.fst) := by
  refine ⟨?_, ?_, ?_⟩
  · intro m t b d a hmem hst
    unfold ExportEventHandler.process_export_request at hmem
    repeat' split at hmem
    all_goals rcases List.mem_append.1 hmem with h | h <;> simp_all
  · intro m t b d a hmem
    unfold ExportService.process_export_request at hmem
    repeat' split at hmem
    all_goals rcases List.mem_append.1 hmem with h | h <;> simp_all
  · intro now a hurl hmem
    rw [ReportAuditLogDataStore.mem_keys_download_url] at hmem
    rcases hmem with ⟨u, hu, _⟩
    rw [hurl] at hu
    exact Option.noConfusion hu

/-- Witness for C9 at a concrete input: the `FAILED` write of a failed
handler run carries no download URL. -/
theorem C9_witness :
    Effect.audit { status := .FAILED } ∈
      (ExportEventHandler.process_export_request exMsgC7 0 .noFile exDeliveryOk).1 ∧
    (UpdateStatusArgs.download_url { status := .FAILED }) = none :=
  ⟨by decide,
   C9_no_url_without_success.1 exMsgC7 0 .noFile exDeliveryOk
     { status := .FAILED } (by decide) (by decide)⟩

/-- A job routed to a placeholder builder that returns `None`
(`insights / projectCollaboration`), requested in email mode. -/
def exMsgC5 : SQSExportMessage :=
  { eventId := "evt-2", mode := .email, module := .insights
    type := "projectCollaboration", subType := "all"
    user_id := 7, clientId := 11, productId := 3 }

/-- C5 counterexample: a job whose builder produces no file fails — the
audit row is written `FAILED` and the run returns `False` — yet the
pipeline publishes NO notification at all, in email mode (and likewise in
download mode), contradicting `for failed jobs, a FAILED notification is
published in both download and email modes`. -/
theorem C5_counterexample :
    ExportEventHandler.process_export_request exMsgC5 0 .noFile exDeliveryOk =
      ([.audit { status := .PROCESSING }, .audit { status := .FAILED }], false) ∧
    ExportEventHandler.process_export_request { exMsgC5 with mode := .download } 0
        .noFile exDeliveryOk =
      ([.audit { status := .PROCESSING }, .audit { status := .FAILED }], false) := by
  constructor <;> rfl

/-- C5 (amended): in the handler pipeline a `SUCCESS` notification (which
bears the delivery URL) is published only when the job's mode is
`download`; a `FAILED` notification is published exactly when the builder
raised, or the delivery step raised or reported failure — jobs that fail
before the delivery step (no processor, builder returning `None`) publish
no notification at all. -/
theorem C5_notification_modes (m : SQSExportMessage) (t : Int)
    (b : BuilderOutcome) (d : DeliveryOutcome) :
    (∀ u, Effect.notify "SUCCESS" u ∈
      (ExportEventHandler.process_export_request m t b d).1 → m.mode = .download) ∧
    (Effect.notify "FAILED" "" ∈ (ExportEventHandler.process_export_request m t b d).1 ↔
      (b = .raised ∨ (b = .file ∧ (d = .raised ∨ ∃ r, d = .result r ∧ r.success = false)))) ∧
    (b = .noFile →
      ∀ s u, Effect.notify s u ∉ (ExportEventHandler.process_export_request m t b d).1) := by
  refine ⟨?_, ?_, ?_⟩
  · intro u hmem
    unfold ExportEventHandler.process_export_request at hmem
    repeat' split at hmem
    all_goals simp_all
  · unfold ExportEventHandler.process_export_request
    rcases m with ⟨eid, mode, module, ty, sub, uid, cid, pid, fil, pfil⟩
    cases mode <;> cases module <;> rcases b with _ | _ | _ <;>
      rcases d with ⟨⟨suc, sb, du⟩⟩ | _ <;> try cases suc
    all_goals simp [ModuleProcessorFactory.create_processor,
      DeliveryProcessorFactory.create_processor]
  · intro hb s u hmem
    subst hb
    unfold ExportEventHandler.process_export_request at hmem
    repeat' split at hmem
    all_goals simp_all

/-- Witness for C5 at concrete inputs: a download-mode success publishes
the URL-bearing `SUCCESS` notification, and the theorem recovers
`mode = download` from it. -/
theorem C5_witness :
    Effect.notify "SUCCESS" "https-presigned-url" ∈
      (ExportEventHandler.process_export_request exMsgC7 3 .file exDeliveryOk).1 ∧
    exMsgC7.mode = ExportMode.download :=
  ⟨by decide,
   (C5_notification_modes exMsgC7 3 .file exDeliveryOk).1 "https-presigned-url" (by decide)⟩

/-! ## Paginated batch streams — `services/insights_analytics_client.py`
and `services/usage_logs_analytics_client.py`

Every `get_*_batches` generator runs the same loop: start at `page = 1`;
fetch; break on a `None` or empty response without yielding; otherwise
yield the page; break after yielding a short page
(`len(items) < batch_size`); otherwise `page += 1` and break when
`page > 1000`.  The loop is embedded with the remaining page budget as
fuel: at page `p` the budget is `1000 - p`, so fuel `0` is exactly the
`page > 1000` guard firing after page 1000. -/

/-- One iteration of the generator loop on the fetched page `items?`:
a `None` or empty result breaks without yielding; a non-empty page is
yielded; a short page (`len < batch_size`) breaks after the yield;
otherwise the loop continues with `rest`. -/
def batchesStep {α : Type} (batch_size : Nat) (items? : Option (List α))
    (rest : List (List α)) : List (List α) :=
  match items? with
  | none => []
  | some [] => []
  | some (x :: xs) =>
    (x :: xs) :: (if (x :: xs).length < batch_size then [] else rest)

@[simp] lemma batchesStep_none {α : Type} (batch_size : Nat) (rest : List (List α)) :
    batchesStep batch_size none rest = [] := rfl

@[simp] lemma batchesStep_some_nil {α : Type} (batch_size : Nat) (rest : List (List α)) :
    batchesStep batch_size (some []) rest = [] := rfl

@[simp] lemma batchesStep_some_cons {α : Type} (batch_size : Nat) (x : α) (xs : List α)
    (rest : List (List α)) :
    batchesStep batch_size (some (x :: xs)) rest
      = (x :: xs) :: (if (x :: xs).length < batch_size then [] else rest) := rfl

/-- The generator loop with the remaining page budget as fuel: fuel `0`
corresponds exactly to the `page > 1000` guard firing after the current
page. -/
def batchesLoop {α : Type} (fetch : Nat → Option (List α)) (batch_size : Nat) :
    Nat → Nat → List (List α)
  | 0, page => batchesStep batch_size (fetch page) []
  | f + 1, page =>
    batchesStep batch_size (fetch page) (batchesLoop fetch batch_size f (page + 1))

/-- A full generator run: page 1 with budget for pages up to 1000. -/
def get_batches {α : Type} (fetch : Nat → Option (List α)) (batch_size : Nat) :
    List (List α) :=
  batchesLoop fetch batch_size 999 1

namespace InsightsAnalyticsClient

/-- `InsightsAnalyticsClient.get_category_distribution_batches`, as a
function of the per-page fetch results. -/
def get_category_distribution_batches {α : Type} (fetch : Nat → Option (List α))
    (batch_size : Nat) : List (List α) :=
  get_batches fetch batch_size

end InsightsAnalyticsClient

namespace UsageLogsAnalyticsClient

/-- `UsageLogsAnalyticsClient.get_answer_logs_batches`, as a function of
the per-page fetch results (same loop as the insights client). -/
def get_answer_logs_batches {α : Type} (fetch : Nat → Option (List α))
    (batch_size : Nat) : List (List α) :=
  get_batches fetch batch_size

end UsageLogsAnalyticsClient

/-- A well-behaved upstream holding `N` items in total: page `p` (1-based)
returns the slice of length `min batch_size (N - (p-1)*batch_size)`. -/
def wellBehaved {α : Type} (fetch : Nat → Option (List α)) (batch_size N : Nat) : Prop :=
  ∀ p, 1 ≤ p →
    ∃ items, fetch p = some items ∧
      items.length = min batch_size (N - (p - 1) * batch_size)

lemma batchesStep_length_le {α : Type} (batch_size : Nat) (items? : Option (List α))
    (rest : List (List α)) (n : Nat) (h : rest.length ≤ n) :
    (batchesStep batch_size items? rest).length ≤ n + 1 := by
  rcases items? with _ | (_ | ⟨x, xs⟩)
  · simp
  · simp
  · rw [batchesStep_some_cons]
    split <;> simp <;> omega

lemma batchesLoop_length_le {α : Type} (fetch : Nat → Option (List α))
    (batch_size : Nat) :
    ∀ fuel page, (batchesLoop fetch batch_size fuel page).length ≤ fuel + 1 := by
  intro fuel
  induction fuel with
  | zero =>
    intro page
    exact batchesStep_length_le batch_size (fetch page) [] 0 (by simp)
  | succ f ih =>
    intro page
    exact batchesStep_length_le batch_size (fetch page) _ (f + 1) (ih (page + 1))

lemma batchesStep_ne_nil {α : Type} (batch_size : Nat) (items? : Option (List α))
    (rest : List (List α)) (hrest : ∀ l ∈ rest, l ≠ []) :
    ∀ l ∈ batchesStep batch_size items? rest, l ≠ [] := by
  intro l hl
  rcases items? with _ | (_ | ⟨x, xs⟩)
  · simp at hl
  · simp at hl
  · rw [batchesStep_some_cons, List.mem_cons] at hl
    rcases hl with h | h
    · simp [h]
    · split at h
      · simp at h
      · exact hrest l h

lemma batchesLoop_ne_nil {α : Type} (fetch : Nat → Option (List α))
    (batch_size : Nat) :
    ∀ fuel page, ∀ l ∈ batchesLoop fetch batch_size fuel page, l ≠ [] := by
  intro fuel
  induction fuel with
  | zero =>
    intro page
    exact batchesStep_ne_nil batch_size (fetch page) [] (by simp)
  | succ f ih =>
    intro page
    exact batchesStep_ne_nil batch_size (fetch page) _ (ih (page + 1))

lemma batchesLoop_length {α : Type} (fetch : Nat → Option (List α))
    (batch_size N : Nat) (hs : 0 < batch_size)
    (hw : wellBehaved fetch batch_size N) :
    ∀ fuel page, 1 ≤ page →
      (batchesLoop fetch batch_size fuel page).length
        = min ((N - (page - 1) * batch_size + batch_size - 1) / batch_size) (fuel + 1) := by
  intro fuel
  induction fuel with
  | zero =>
    intro page hp
    obtain ⟨items, hf, hlen⟩ := hw page hp
    unfold batchesLoop
    rw [hf]
    rcases items with _ | ⟨x, xs⟩
    · have hrem : N - (page - 1) * batch_size = 0 := by
        simp only [List.length_nil] at hlen
        omega
      rw [batchesStep_some_nil, hrem]
      simp [Nat.div_eq_of_lt (show batch_size - 1 < batch_size by omega)]
    · simp only [List.length_cons] at hlen
      have h1 : 1 ≤ (N - (page - 1) * batch_size + batch_size - 1) / batch_size := by
        rw [Nat.one_le_div_iff hs]
        omega
      rw [batchesStep_some_cons]
      rw [Nat.min_eq_right h1]
      split <;> rfl
  | succ f ih =>
    intro page hp
    obtain ⟨items, hf, hlen⟩ := hw page hp
    have hstep : N - (page + 1 - 1) * batch_size
        = N - (page - 1) * batch_size - batch_size := by
      have hmul : (page + 1 - 1) * batch_size = (page - 1) * batch_size + batch_size := by
        have hpp : page + 1 - 1 = (page - 1) + 1 := by omega
        rw [hpp, Nat.succ_mul]
      rw [hmul, Nat.sub_add_eq]
    unfold batchesLoop
    rw [hf]
    rcases items with _ | ⟨x, xs⟩
    · have hrem : N - (page - 1) * batch_size = 0 := by
        simp only [List.length_nil] at hlen
        omega
      rw [batchesStep_some_nil, hrem]
      simp [Nat.div_eq_of_lt (show batch_size - 1 < batch_size by omega)]
    · simp only [List.length_cons] at hlen
      rw [batchesStep_some_cons]
      split
      · rename_i hshort
        simp only [List.length_cons] at hshort
        have hlt : N - (page - 1) * batch_size < batch_size := by omega
        have hdiv : (N - (page - 1) * batch_size + batch_size - 1) / batch_size = 1 :=
          Nat.div_eq_of_lt_le (by omega) (by omega)
        rw [hdiv]
        simp
      · rename_i hshort
        simp only [List.length_cons] at hshort
        have hge : batch_size ≤ N - (page - 1) * batch_size := by omega
        have hrec := ih (page + 1) (by omega)
        rw [hstep] at hrec
        simp only [List.length_cons, hrec]
        have hplus : N - (page - 1) * batch_size - batch_size + batch_size - 1
            = N - (page - 1) * batch_size - 1 := by omega
        have hdivsucc : (N - (page - 1) * batch_size + batch_size - 1) / batch_size
            = (N - (page - 1) * batch_size - 1) / batch_size + 1 := by
          have harg : N - (page - 1) * batch_size + batch_size - 1
              = (N - (page - 1) * batch_size - 1) + batch_size := by omega
          rw [harg, Nat.add_div_right _ hs]
        rw [hplus, hdivsucc]
        omega

/-- C6 (amended): every batch stream starts at page 1, yields only
non-empty pages, and never yields more than 1000 pages; for a well-behaved
upstream holding `N` items the number of yielded pages is exactly
`min ⌈N / batch_size⌉ 1000` (in particular `0` when `N = 0`, and
`⌈N / batch_size⌉` whenever that is at most 1000). -/
theorem C6_page_stream_counts :
    (∀ (α : Type) (fetch : Nat → Option (List α)) (batch_size N : Nat),
      0 < batch_size → wellBehaved fetch batch_size N →
      (InsightsAnalyticsClient.get_category_distribution_batches fetch batch_size).length
        = min ((N + batch_size - 1) / batch_size) 1000) ∧
    (∀ (α : Type) (fetch : Nat → Option (List α)) (batch_size : Nat),
      (UsageLogsAnalyticsClient.get_answer_logs_batches fetch batch_size).length ≤ 1000) ∧
    (∀ (α : Type) (fetch : Nat → Option (List α)) (batch_size : Nat),
      ∀ l ∈ get_batches fetch batch_size, l ≠ []) := by
  refine ⟨?_, ?_, ?_⟩
  · intro α fetch batch_size N hs hw
    have h := batchesLoop_length fetch batch_size N hs hw 999 1 (by omega)
    simpa [InsightsAnalyticsClient.get_category_distribution_batches, get_batches] using h
  · intro α fetch batch_size
    exact batchesLoop_length_le fetch batch_size 999 1
  · intro α fetch batch_size
    exact batchesLoop_ne_nil fetch batch_size 999 1

/-- An upstream holding 1001 items served one per page: 1001 non-empty
pages are available. -/
def fetchOver : Nat → Option (List Nat) :=
  fun p => some (if p ≤ 1001 then [p] else [])

lemma fetchOver_wellBehaved : wellBehaved fetchOver 1 1001 := by
  intro p hp
  refine ⟨_, rfl, ?_⟩
  by_cases h : p ≤ 1001 <;> simp [h] <;> omega

/-- C6 counterexample: with a well-behaved upstream of `N = 1001` items and
`batch_size = 1`, the stream yields 1000 pages — the 1000-page safety cap —
while `⌈N / batch_size⌉ = 1001`, so the stream does NOT always yield
exactly `⌈N / batch_size⌉` pages. -/
theorem C6_counterexample :
    wellBehaved fetchOver 1 1001 ∧
    (get_batches fetchOver 1).length = 1000 ∧
    (1001 + 1 - 1) / 1 = 1001 := by
  refine ⟨fetchOver_wellBehaved, ?_, by norm_num⟩
  have h := batchesLoop_length fetchOver 1 1001 (by omega) fetchOver_wellBehaved 999 1 (by omega)
  simpa [get_batches] using h

/-- A small upstream: 3 items served in pages of 2. -/
def fetchSmall : Nat → Option (List Nat) :=
  fun p => some (if p = 1 then [10, 11] else if p = 2 then [12] else [])

lemma fetchSmall_wellBehaved : wellBehaved fetchSmall 2 3 := by
  intro p hp
  refine ⟨_, rfl, ?_⟩
  by_cases h1 : p = 1
  · simp [h1]
  · by_cases h2 : p = 2
    · subst h2
      simp
    · simp [h1, h2]
      omega

/-- Witness for C6 at a concrete input: 3 items in pages of 2 yield
exactly `⌈3/2⌉ = 2` pages. -/
theorem C6_witness :
    (0 : Nat) < 2 ∧ wellBehaved fetchSmall 2 3 ∧
    (InsightsAnalyticsClient.get_category_distribution_batches fetchSmall 2).length
      = min ((3 + 2 - 1) / 2) 1000 :=
  ⟨by decide, fetchSmall_wellBehaved,
   C6_page_stream_counts.1 Nat fetchSmall 2 3 (by decide) fetchSmall_wellBehaved⟩


/-! ## FAQ frequency — `services/excel_generators/insights_faq_generator.py`
(`_get_base_count`, `_create_category_sheet`, `_create_subcategory_sheet`)
and `excel_generators/insights_faq_excel_generator.py`
(`_add_category_batch_to_excel`, `_add_subcategory_batch_to_excel`).

Distributions are percentages; Python's `int()` truncates toward zero,
which on the non-negative values involved is the floor. -/

/-- The two info-cards counters used as denominators.  `none` models a
missing `"count"` key: the dict access raises and `_get_base_count`
returns 0 from its `except` branch. -/
structure InfoCards where
  totalQuestionsCount : Option Int
  totalQuestionsAnsweredCount : Option Int
deriving DecidableEq

namespace InsightsFAQGeneratorServices

/-- `_get_base_count`: `totalQuestions["count"]` for `All`,
`totalQuestionsAnswered["count"]` for `Answered`, their difference for
`Unanswered`, `totalQuestions["count"]` otherwise; 0 on any exception. -/
def get_base_count (info_cards : InfoCards) (sheet_suffix : String) : Int :=
  if sheet_suffix = "All" then
    match info_cards.totalQuestionsCount with
    | some n => n
    | none => 0
  else if sheet_suffix = "Answered" then
    match info_cards.totalQuestionsAnsweredCount with
    | some n => n
    | none => 0
  else if sheet_suffix = "Unanswered" then
    match info_cards.totalQuestionsCount, info_cards.totalQuestionsAnsweredCount with
    | some a, some b => a - b
    | _, _ => 0
  else
    match info_cards.totalQuestionsCount with
    | some n => n
    | none => 0

end InsightsFAQGeneratorServices

/-- Python's `int()` on a real value: truncation toward zero. -/
def pyInt (q : ℚ) : ℤ :=
  if 0 ≤ q then ⌊q⌋ else ⌈q⌉

/-- Row frequency in the services FAQ generator:
`int(base_count * (distribution / 100))`. -/
def frequencyServices (base_count : Int) (distribution : ℚ) : Int :=
  pyInt ((base_count : ℚ) * (distribution / 100))

/-- Row frequency in the streaming excel generator:
`int(1000 * (distribution / 100))` — the denominator is the HARDCODED
placeholder `1000`, not the info-cards count. -/
def frequencyStreaming (distribution : ℚ) : Int :=
  pyInt ((1000 : ℚ) * (distribution / 100))

lemma pyInt_intCast (n : Int) : pyInt (n : ℚ) = n := by
  unfold pyInt
  split
  · exact Int.floor_intCast n
  · exact Int.ceil_intCast n

lemma pyInt_nonneg_eq_floor (q : ℚ) (h : 0 ≤ q) : pyInt q = ⌊q⌋ := by
  unfold pyInt
  rw [if_pos h]

/-- C8 (amended): the services FAQ generator computes every category and
subcategory frequency as `⌊base_count * distribution / 100⌋` where
`base_count` comes from the single info-cards call per the suffix mapping
(`totalQuestions.count` for All, `totalQuestionsAnswered.count` for
Answered, the difference for Unanswered); `distribution = 0` yields 0 and
`distribution = 100` yields `base_count`.  The streaming excel generator
instead computes `⌊1000 * distribution / 100⌋` with a hardcoded
placeholder denominator of 1000, ignoring the info-cards counts. -/
theorem C8_frequency_floor :
    (∀ a b : Int,
      InsightsFAQGeneratorServices.get_base_count ⟨some a, some b⟩ "All" = a ∧
      InsightsFAQGeneratorServices.get_base_count ⟨some a, some b⟩ "Answered" = b ∧
      InsightsFAQGeneratorServices.get_base_count ⟨some a, some b⟩ "Unanswered" = a - b) ∧
    (∀ (base : Int) (dist : ℚ), 0 ≤ base → 0 ≤ dist →
      frequencyServices base dist = ⌊(base : ℚ) * dist / 100⌋) ∧
    (∀ base : Int, frequencyServices base 0 = 0) ∧
    (∀ base : Int, frequencyServices base 100 = base) ∧
    (∀ dist : ℚ, 0 ≤ dist →
      frequencyStreaming dist = ⌊(1000 : ℚ) * dist / 100⌋) := by
  refine ⟨?_, ?_, ?_, ?_, ?_⟩
  · intro a b
    refine ⟨rfl, rfl, rfl⟩
  · intro base dist hb hd
    unfold frequencyServices
    rw [pyInt_nonneg_eq_floor _ (by positivity), mul_div_assoc]
  · intro base
    unfold frequencyServices
    norm_num [pyInt]
  · intro base
    unfold frequencyServices
    rw [show ((100 : ℚ) / 100) = 1 by norm_num, mul_one, pyInt_intCast]
  · intro dist hd
    unfold frequencyStreaming
    rw [pyInt_nonneg_eq_floor _ (by positivity), mul_div_assoc]

/-- Witness for C8 at concrete inputs: base 7, distribution 50 gives
`⌊7 * 50 / 100⌋ = 3` in the services generator. -/
theorem C8_witness :
    (0 : Int) ≤ 7 ∧ (0 : ℚ) ≤ 50 ∧
    frequencyServices 7 50 = ⌊((7 : Int) : ℚ) * 50 / 100⌋ :=
  ⟨by norm_num, by norm_num,
   C8_frequency_floor.2.1 7 50 (by norm_num) (by norm_num)⟩

/-- C8 counterexample: with `totalQuestions.count = 500` and
`distribution = 100`, the claim demands frequency
`⌊500 * 100 / 100⌋ = 500`, and the services generator produces 500 — but
the streaming excel generator writes 1000 for the same row. -/
theorem C8_counterexample :
    InsightsFAQGeneratorServices.get_base_count ⟨some 500, some 300⟩ "All" = 500 ∧
    frequencyServices 500 100 = 500 ∧
    frequencyStreaming 100 = 1000 ∧
    frequencyStreaming 100 ≠ ⌊((500 : Int) : ℚ) * 100 / 100⌋ := by
  have hs : frequencyServices 500 100 = 500 := by
    unfold frequencyServices
    rw [show ((100 : ℚ) / 100) = 1 by norm_num, mul_one, pyInt_intCast]
  have hf : frequencyStreaming 100 = 1000 := by
    unfold frequencyStreaming
    rw [show ((1000 : ℚ) * (100 / 100)) = ((1000 : Int) : ℚ) by norm_num, pyInt_intCast]
  refine ⟨rfl, hs, hf, ?_⟩
  rw [hf]
  intro hcontra
  rw [show (((500 : Int) : ℚ) * 100 / 100) = ((500 : Int) : ℚ) by norm_num,
    Int.floor_intCast] at hcontra
  exact absurd hcontra (by norm_num)

/-! ## Queue consumer and batch listener —
`sqs_consumer.py` and `event/listener/sqs_listener.py` -/

/-- A decoded JSON message body as a bag of optional fields.  `none` on a
required field means the key is absent from the payload. -/
structure RawBody where
  eventId : Option String := none
  mode : Option ExportMode := none
  module : Option ExportModule := none
  type : Option String := none
  subType : Option String := none
  user_id : Option Int := none
  clientId : Option Int := none
  productId : Option Int := none
  filter : Option FilterConditions := none
  pageFilter : Option FilterConditions := none
deriving DecidableEq

/-- Construction of the pydantic `SQSExportMessage` from a decoded body:
every non-Optional field is required, so a missing field makes the
constructor raise `ValidationError` (`none` here). -/
def pydantic_parse (b : RawBody) : Option SQSExportMessage :=
  match b.eventId, b.mode, b.module, b.type, b.subType,
        b.user_id, b.clientId, b.productId with
  | some e, some mo, some md, some t, some st, some u, some c, some p =>
    some ⟨e, mo, md, t, st, u, c, p, b.filter, b.pageFilter⟩
  | _, _, _, _, _, _, _, _ => none

/-- What `SQSConsumer._process_message` did with one message: whether the
message was deleted (acknowledged) and whether
`export_service.process_export_request` was ever invoked (every audit
write, notification and storage write happens inside that call). -/
structure ConsumerOutcome where
  deleted : Bool
  export_attempted : Bool
deriving DecidableEq

namespace SQSConsumer

/-- `sqs_consumer.SQSConsumer._process_message` on one message.
`body = none` models a `json.JSONDecodeError` (deleted, not processed).
For a decoded body the source calls `SQSExportMessage.from_dict(body)`;
the pydantic model defines no `from_dict`, so the call raises
`AttributeError` and the blanket `except Exception` branch leaves the
message undeleted.  This embedding is charitable to the claim and gives
`from_dict` the semantics of the pydantic constructor: even then, a body
with a missing required field raises inside the constructor — before
`_validate_message` can run — and the blanket `except` branch neither
deletes nor processes.  `process_result` is the boolean returned by
`export_service.process_export_request` when the job parses. -/
def process_message : Option RawBody → Bool → ConsumerOutcome
  | none, _ => { deleted := true, export_attempted := false }
  | some b, process_result =>
    match pydantic_parse b with
    | none => { deleted := false, export_attempted := false }
    | some _ =>
      if process_result then { deleted := true, export_attempted := true }
      else { deleted := false, export_attempted := true }

end SQSConsumer

/-- One record of a listener batch: its broker message id, its decoded
body (`none` models a body that fails JSON decoding), and the boolean the
export handler returns for it once parsed. -/
structure ListenerRecord where
  messageId : String
  body : Option RawBody
  handler_result : Bool
deriving DecidableEq

namespace SqsListener

/-- `sqs_listener.process_message`: decode the body, build the export
message and run the handler; any exception (bad JSON, pydantic
`ValidationError` inside `handle_event`) yields `False`. -/
def process_message (r : ListenerRecord) : Bool :=
  match r.body with
  | none => false
  | some b =>
    match pydantic_parse b with
    | none => false
    | some _ => r.handler_result

/-- `sqs_listener.handle_records`: per-record processing, appending
`{itemIdentifier: messageId}` for every record that failed or raised; the
returned list is the `batchItemFailures` array of the broker reply. -/
def handle_records : List ListenerRecord → List String
  | [] => []
  | r :: rest =>
    if process_message r then handle_records rest
    else r.messageId :: handle_records rest

lemma handle_records_eq_filter (rs : List ListenerRecord) :
    handle_records rs
      = (rs.filter (fun r => !process_message r)).map (·.messageId) := by
  induction rs with
  | nil => rfl
  | cons r rest ih =>
    unfold handle_records
    by_cases h : process_message r <;> simp [h, ih]

end SqsListener

/-- C2: the broker reply lists exactly the message ids of the records
whose processing failed (returned `False` or raised), in batch order;
a successfully processed record's id never appears in the reply.  On the
consumer side, among messages that decode and parse, exactly the
successfully processed ones are deleted (acknowledged). -/
theorem C2_batch_failure_reply :
    (∀ rs : List ListenerRecord,
      SqsListener.handle_records rs
        = (rs.filter (fun r => !SqsListener.process_message r)).map (·.messageId)) ∧
    (∀ (rs : List ListenerRecord) (mid : String),
      mid ∈ SqsListener.handle_records rs ↔
        ∃ r ∈ rs, r.messageId = mid ∧ SqsListener.process_message r = false) ∧
    (∀ (b : RawBody) (process_result : Bool) (m : SQSExportMessage),
      pydantic_parse b = some m →
      (SQSConsumer.process_message (some b) process_result).deleted = process_result) := by
  refine ⟨SqsListener.handle_records_eq_filter, ?_, ?_⟩
  · intro rs mid
    rw [SqsListener.handle_records_eq_filter]
    simp only [List.mem_map, List.mem_filter, Bool.not_eq_true']
    aesop
  · intro b process_result m hparse
    simp only [SQSConsumer.process_message]
    rw [hparse]
    cases process_result <;> rfl

/-- A well-formed decoded body (all required fields present). -/
def exBodyOk : RawBody :=
  { eventId := some "evt-3", mode := some .download, module := some .insights
    type := some "responseGeneration", subType := some "frequentAskedQuestions"
    user_id := some 7, clientId := some 11, productId := some 3 }

/-- Witness for C2 at concrete inputs: a parsed message that processes
successfully is deleted. -/
theorem C2_witness :
    (∃ m, pydantic_parse exBodyOk = some m) ∧
    (SQSConsumer.process_message (some exBodyOk) true).deleted = true :=
  ⟨⟨_, rfl⟩, C2_batch_failure_reply.2.2 exBodyOk true _ rfl⟩

/-- The poison message of spec scenario 6: a decoded body missing
`eventId` (all other required fields present). -/
def poisonBody : RawBody :=
  { mode := some .download, module := some .insights
    type := some "responseGeneration", subType := some "frequentAskedQuestions"
    user_id := some 7, clientId := some 11, productId := some 3 }

/-- C3 failing-input evaluation: for the body missing `eventId`, pydantic
construction fails, so the consumer's generic exception branch runs: the
message is NOT deleted (it is redriven after the visibility timeout, the
claim expects an acknowledge) and the export service is never invoked (so
indeed no audit write, no notification, no storage write).  In the
listener path the same message is reported in `batchItemFailures`, i.e.
also redriven rather than dropped. -/
theorem C3_poison_message_not_acknowledged :
    pydantic_parse poisonBody = none ∧
    (∀ process_result : Bool,
      SQSConsumer.process_message (some poisonBody) process_result
        = { deleted := false, export_attempted := false }) ∧
    SqsListener.handle_records
        [{ messageId := "m-1", body := some poisonBody, handler_result := true }]
      = ["m-1"] := by
  refine ⟨rfl, ?_, rfl⟩
  intro process_result
  rfl
